import Mathlib

/-!
Shallow embedding of the bookstore inventory backend
(`backend/inventory/models.py`, `serializers.py`, `views.py`).

The mutable relational store is a `DB` record of lists of rows.  Each
Django view's `post`/`get` method becomes a pure function from a `DB`
and a request to an updated `DB` and a response; serializer validation
is embedded as boolean predicates run before any write, matching DRF's
`is_valid(raise_exception=True)` (field-level validators first, then
the object-level `validate`).  Machine integers are `Int`/`Nat`
(Python integers are unbounded, so no modular arithmetic is needed).
-/

namespace Bookstore

/-- `TransactionType` choices from `models.py` (ARRIVAL/SALE/LOSS/THEFT). -/
inductive TransactionType where
  | ARRIVAL
  | SALE
  | LOSS
  | THEFT
deriving DecidableEq

/-- `Genre` model: surrogate key and unique name. -/
structure Genre where
  id : Nat
  name : String
deriving DecidableEq

/-- `Book` model: surrogate key, genre foreign key, positive integer price,
title and author (the fields the reporting endpoints surface). -/
structure Book where
  id : Nat
  genreId : Nat
  price : Nat
  title : String
  author : String
deriving DecidableEq

/-- `Inventory` model: one-to-one with `Book` (keyed here by `bookId`),
holding the current stock `quantity`.  The column is a
`PositiveIntegerField`, but the Python attribute is an unbounded integer
(the views compute `inventory.quantity -= quantity` in Python), so the
field is embedded as `Int` and non-negativity is proved, not assumed. -/
structure Inventory where
  bookId : Nat
  quantity : Int
deriving DecidableEq

/-- `InventoryTransaction` model: references an `Inventory` (identified by
its book, since `Inventory` is 1:1 with `Book`), a transaction type, a
quantity (always positive in the source), and an optional reason. -/
structure InventoryTransaction where
  bookId : Nat
  transaction_type : TransactionType
  quantity : Int
  reason : String
deriving DecidableEq

/-- `Sale` model: book foreign key, quantity, `unit_price` captured at sale
time, and the business timestamp `sold_at` (embedded as an integer number
of days, the granularity the period cutoffs need). -/
structure Sale where
  bookId : Nat
  quantity : Int
  unit_price : Nat
  sold_at : Int
deriving DecidableEq

/-- The relational store: one list of rows per model. -/
structure DB where
  genres : List Genre
  books : List Book
  inventories : List Inventory
  transactions : List InventoryTransaction
  sales : List Sale
deriving DecidableEq

/-- `Book.objects.get(pk=...)` / `PrimaryKeyRelatedField` lookup. -/
def findBook (db : DB) (bid : Nat) : Option Book :=
  db.books.find? (fun b => b.id == bid)

/-- `Inventory.objects.get(book=...)` lookup (1:1, keyed by book). -/
def findInventory (db : DB) (bid : Nat) : Option Inventory :=
  db.inventories.find? (fun i => i.bookId == bid)

/-- `inventory.save()` after assigning `inventory.quantity`: writes the new
quantity back to the row(s) for that book. -/
def updateInventoryQty (invs : List Inventory) (bid : Nat) (q : Int) :
    List Inventory :=
  invs.map (fun i => if i.bookId = bid then { i with quantity := q } else i)

/-- HTTP outcome of a mutating view: 201 Created with a payload, or a 400
validation failure raised by `is_valid(raise_exception=True)`. -/
inductive ApiResult (α : Type) where
  | created (payload : α)
  | badRequest
deriving DecidableEq

/-- An arrival request body (`ArrivalSerializer` fields). -/
structure ArrivalRequest where
  book_id : Nat
  quantity : Int
deriving DecidableEq

/-- `ArrivalSerializer` validation: `book_id` must reference an existing
book, `quantity` is an `IntegerField(min_value=1)`. -/
def ArrivalSerializer.is_valid (db : DB) (r : ArrivalRequest) : Bool :=
  (findBook db r.book_id).isSome && decide (1 ≤ r.quantity)

/-- `ArrivalView.post` (`views.py` 66-89): validate; `get_or_create` the
inventory with default quantity 0; `quantity += quantity`; save; append one
ARRIVAL `InventoryTransaction`; return 201 with the updated inventory. -/
def ArrivalView.post (db : DB) (r : ArrivalRequest) : DB × ApiResult Int :=
  if ArrivalSerializer.is_valid db r then
    match findInventory db r.book_id with
    | some inv =>
        let newQty := inv.quantity + r.quantity
        ({ db with
            inventories := updateInventoryQty db.inventories r.book_id newQty,
            transactions := db.transactions ++
              [⟨r.book_id, TransactionType.ARRIVAL, r.quantity, ""⟩] },
          ApiResult.created newQty)
    | none =>
        let newQty := (0 : Int) + r.quantity
        ({ db with
            inventories := db.inventories ++ [⟨r.book_id, newQty⟩],
            transactions := db.transactions ++
              [⟨r.book_id, TransactionType.ARRIVAL, r.quantity, ""⟩] },
          ApiResult.created newQty)
  else (db, ApiResult.badRequest)

/-- Python `str.strip()`: remove leading and trailing whitespace
(embedded over the character list so that it evaluates by reduction). -/
def pyStrip (s : String) : String :=
  ⟨((s.data.dropWhile Char.isWhitespace).reverse.dropWhile
      Char.isWhitespace).reverse⟩

/-- An adjustment request body (`InventoryAdjustmentSerializer` fields). -/
structure AdjustmentRequest where
  book_id : Nat
  transaction_type : TransactionType
  quantity : Int
  reason : String
deriving DecidableEq

/-- Field-level validation of `InventoryAdjustmentSerializer`: existing
book, `transaction_type ∈ {LOSS, THEFT}` (`ChoiceField`), `quantity ≥ 1`,
and `validate_reason`: `value.strip()` must be non-empty. -/
def InventoryAdjustmentSerializer.fields_valid (db : DB)
    (r : AdjustmentRequest) : Bool :=
  (findBook db r.book_id).isSome
    && (r.transaction_type == TransactionType.LOSS
        || r.transaction_type == TransactionType.THEFT)
    && decide (1 ≤ r.quantity)
    && !(pyStrip r.reason == "")

/-- Object-level `validate` of `InventoryAdjustmentSerializer`
(`serializers.py` 93-104): the inventory must exist and
`inventory.quantity < quantity` is rejected. -/
def InventoryAdjustmentSerializer.validate (db : DB)
    (r : AdjustmentRequest) : Bool :=
  match findInventory db r.book_id with
  | some inv => decide (r.quantity ≤ inv.quantity)
  | none => false

/-- `InventoryAdjustmentView.post` (`views.py` 95-127): validate;
`quantity -= quantity`; save; append one LOSS/THEFT transaction carrying
the reason; return 201 with `inventory_after`. -/
def InventoryAdjustmentView.post (db : DB) (r : AdjustmentRequest) :
    DB × ApiResult Int :=
  if InventoryAdjustmentSerializer.fields_valid db r
      && InventoryAdjustmentSerializer.validate db r then
    match findInventory db r.book_id with
    | some inv =>
        let newQty := inv.quantity - r.quantity
        ({ db with
            inventories := updateInventoryQty db.inventories r.book_id newQty,
            transactions := db.transactions ++
              [⟨r.book_id, r.transaction_type, r.quantity, r.reason⟩] },
          ApiResult.created newQty)
    | none =>
        -- unreachable: the object-level validate ensured the inventory exists
        (db, ApiResult.badRequest)
  else (db, ApiResult.badRequest)

/-- A sale request body (`SaleCreateSerializer` fields). -/
structure SaleRequest where
  book_id : Nat
  quantity : Int
  sold_at : Int
deriving DecidableEq

/-- Field-level validation of `SaleCreateSerializer`: existing book and
`quantity ≥ 1` (`sold_at` is an always-present parsed datetime). -/
def SaleCreateSerializer.fields_valid (db : DB) (r : SaleRequest) : Bool :=
  (findBook db r.book_id).isSome && decide (1 ≤ r.quantity)

/-- Object-level `validate` of `SaleCreateSerializer` (`serializers.py`
114-125): inventory must exist and the quantity must not exceed it. -/
def SaleCreateSerializer.validate (db : DB) (r : SaleRequest) : Bool :=
  match findInventory db r.book_id with
  | some inv => decide (r.quantity ≤ inv.quantity)
  | none => false

/-- The write phase of `SaleView.post` (`views.py` 142-160), after
validation has passed: create the `Sale` row capturing `book.price` as
`unit_price`; re-read the inventory, `quantity -= quantity`, save; append
one SALE transaction.  Split out so that interleaved executions of the
check and the write can also be expressed. -/
def SaleView.commit (db : DB) (r : SaleRequest) : DB :=
  match findBook db r.book_id, findInventory db r.book_id with
  | some book, some inv =>
      { db with
          sales := db.sales ++ [⟨r.book_id, r.quantity, book.price, r.sold_at⟩],
          inventories := updateInventoryQty db.inventories r.book_id
            (inv.quantity - r.quantity),
          transactions := db.transactions ++
            [⟨r.book_id, TransactionType.SALE, r.quantity, ""⟩] }
  | _, _ => db

/-- `SaleView.post` (`views.py` 133-171): validate, then commit the three
writes; return 201 with the sale summary (the resulting quantity stands in
for the payload here). -/
def SaleView.post (db : DB) (r : SaleRequest) : DB × ApiResult Int :=
  if SaleCreateSerializer.fields_valid db r
      && SaleCreateSerializer.validate db r then
    match findInventory db r.book_id with
    | some inv => (SaleView.commit db r, ApiResult.created (inv.quantity - r.quantity))
    | none =>
        -- unreachable: the object-level validate ensured the inventory exists
        (db, ApiResult.badRequest)
  else (db, ApiResult.badRequest)

/-- `BookViewSet` update changing a book's price (`views.py` 45-53 with
`BookCreateSerializer`): rewrites the catalog row, touching no other
table. -/
def updateBookPrice (db : DB) (bid : Nat) (newPrice : Nat) : DB :=
  { db with
      books := db.books.map
        (fun b => if b.id = bid then { b with price := newPrice } else b) }

/-- One ledger-mutating request. -/
inductive Op where
  | arrival (r : ArrivalRequest)
  | adjustment (r : AdjustmentRequest)
  | sale (r : SaleRequest)
deriving DecidableEq

/-- Run one request, returning the new store and the HTTP outcome. -/
def applyOpR (db : DB) (op : Op) : DB × ApiResult Int :=
  match op with
  | Op.arrival r => ArrivalView.post db r
  | Op.adjustment r => InventoryAdjustmentView.post db r
  | Op.sale r => SaleView.post db r

/-- Run one request, keeping only the resulting store. -/
def applyOp (db : DB) (op : Op) : DB := (applyOpR db op).1

/-- Run a sequence of requests left to right. -/
def applyOps (db : DB) : List Op → DB
  | [] => db
  | op :: ops => applyOps (applyOp db op) ops

/-- Signed contribution of one transaction: ARRIVAL counts positive,
SALE/LOSS/THEFT count negative. -/
def signedAmount (t : InventoryTransaction) : Int :=
  match t.transaction_type with
  | TransactionType.ARRIVAL => t.quantity
  | _ => -t.quantity

/-- Signed sum of all transactions recorded against one book's inventory. -/
def signedSum (txs : List InventoryTransaction) (bid : Nat) : Int :=
  ((txs.filter (fun t => t.bookId == bid)).map signedAmount).sum

/-- Ledger invariant on the inventory and transaction tables: every
inventory row's quantity is the signed sum of its transactions, and every
transaction belongs to an existing inventory row. -/
def LedgerInvOn (invs : List Inventory) (txs : List InventoryTransaction) :
    Prop :=
  (∀ inv ∈ invs, inv.quantity = signedSum txs inv.bookId)
    ∧ ∀ t ∈ txs, ∃ inv ∈ invs, inv.bookId = t.bookId

/-- Ledger invariant of a whole store. -/
def LedgerInv (db : DB) : Prop := LedgerInvOn db.inventories db.transactions

/-- Non-negativity invariant: no inventory row holds a negative quantity. -/
def NonNegInv (db : DB) : Prop := ∀ inv ∈ db.inventories, 0 ≤ inv.quantity

/-- The store with no rows at all. -/
def emptyDB : DB := ⟨[], [], [], [], []⟩

instance : DecidablePred LedgerInv := fun _ =>
  inferInstanceAs (Decidable (_ ∧ _))

instance : DecidablePred NonNegInv := fun db =>
  inferInstanceAs (Decidable (∀ inv ∈ db.inventories, 0 ≤ inv.quantity))

/-! ### Sales reporting (`TopSalesView`, `TopSalesByGenreView`) -/

/-- `PERIOD_MAPPING` (`views.py` 27-35): maps a period string to an
optional cutoff length in days (`timedelta(weeks=1)` is 7 days, and so
on); `"all"` maps to no lower bound; anything else is absent. -/
def PERIOD_MAPPING (period : String) : Option (Option Int) :=
  if period = "1w" then some (some 7)
  else if period = "1m" then some (some 30)
  else if period = "3m" then some (some 90)
  else if period = "6m" then some (some 180)
  else if period = "1y" then some (some 365)
  else if period = "5y" then some (some (365 * 5))
  else if period = "all" then some none
  else none

/-- Decimal digit run to a number: at least one digit, digits only;
anything else is a conversion failure. -/
def digitsToNat (cs : List Char) : Option Nat :=
  if cs.isEmpty then none
  else if cs.all Char.isDigit then
    some (cs.foldl (fun a c => a * 10 + (c.toNat - '0'.toNat)) 0)
  else none

/-- Python `int(s)` on a string: optional surrounding whitespace, an
optional sign, then at least one digit; anything else raises
`ValueError`. -/
def pyInt (s : String) : Option Int :=
  match (pyStrip s).data with
  | [] => none
  | c :: rest =>
    if c = '-' then (digitsToNat rest).map (fun n => -(n : Int))
    else if c = '+' then (digitsToNat rest).map (fun n => (n : Int))
    else (digitsToNat (c :: rest)).map (fun n => (n : Int))

/-- `int(request.query_params.get("limit", 10))`: absent means the
integer default 10; a present string goes through `int()`. -/
def getLimit (p : Option String) : Option Int :=
  match p with
  | none => some 10
  | some s => pyInt s

/-- `sold_at__gte=start_date` filter: with a cutoff length `d`, keep sales
with `sold_at ≥ now - d` (inclusive); with no lower bound keep all. -/
def qualifies (now : Int) (delta : Option Int) (s : Sale) : Bool :=
  match delta with
  | none => true
  | some d => decide (now - d ≤ s.sold_at)

/-- `book__genre_id=genre_id` filter: joins the sale to its book and
compares the book's genre key (the parameter is the `int()`-converted
query value, so it ranges over all integers). -/
def saleGenreMatches (db : DB) (gid : Int) (s : Sale) : Bool :=
  match findBook db s.bookId with
  | some b => (b.genreId : Int) == gid
  | none => false

/-- Combined row filter of the two reporting queries: period window and,
for the by-genre endpoint, the genre join. -/
def saleSelected (db : DB) (now : Int) (delta : Option Int)
    (genre : Option Int) (s : Sale) : Bool :=
  qualifies now delta s
    && match genre with
       | none => true
       | some gid => saleGenreMatches db gid s

/-- The filtered `Sale` queryset of a reporting request. -/
def qualifyingSales (db : DB) (now : Int) (delta : Option Int)
    (genre : Option Int) : List Sale :=
  db.sales.filter (saleSelected db now delta genre)

/-- Distinct book keys of a list of sales (`values("book_id", ...)`
grouping). -/
def saleBookIds (sales : List Sale) : List Nat :=
  (sales.map (fun s => s.bookId)).dedup

/-- `Sum("quantity")` for one book over a list of sales. -/
def totalQuantityFor (sales : List Sale) (bid : Nat) : Int :=
  ((sales.filter (fun s => s.bookId == bid)).map (fun s => s.quantity)).sum

/-- The grouped aggregation `values(...).annotate(total_quantity=Sum(...))`:
one `(book_id, total_quantity)` pair per distinct book. -/
def groupedTotals (sales : List Sale) : List (Nat × Int) :=
  (saleBookIds sales).map (fun b => (b, totalQuantityFor sales b))

/-- `order_by("-total_quantity")`: group `a` may precede `b` exactly when
`b`'s total is at most `a`'s. -/
def byDescTotal (a b : Nat × Int) : Prop := b.2 ≤ a.2

instance : DecidableRel byDescTotal := fun a b => Int.decLe b.2 a.2

instance : IsTotal (Nat × Int) byDescTotal := ⟨fun a b => Int.le_total b.2 a.2⟩

instance : IsTrans (Nat × Int) byDescTotal := ⟨fun _ _ _ h1 h2 => le_trans h2 h1⟩

/-- One row of the reporting response: `book_id`, `book__title`,
`book__author`, `total_quantity`. -/
structure TopRow where
  book_id : Nat
  title : String
  author : String
  total_quantity : Int
deriving DecidableEq

/-- Resolve the `values(...)` join columns for one grouped pair. -/
def rowOf (db : DB) (p : Nat × Int) : TopRow :=
  match findBook db p.1 with
  | some b => ⟨p.1, b.title, b.author, p.2⟩
  | none => ⟨p.1, "", "", p.2⟩

/-- The shared query pipeline of both reporting views: filter, group,
sum, sort descending by total, truncate to `limit`, resolve join columns. -/
def topSalesRows (db : DB) (now : Int) (delta : Option Int)
    (genre : Option Int) (limit : Int) : List TopRow :=
  (((groupedTotals (qualifyingSales db now delta genre)).insertionSort
      byDescTotal).take limit.toNat).map (rowOf db)

/-- Outcome of a reporting request: 400 for a rejected parameter, an
uncaught `ValueError` escaping the view (Django turns it into a 500), or
200 with the ranked rows. -/
inductive TopSalesResponse where
  | badRequest
  | serverError
  | ok (rows : List TopRow)
deriving DecidableEq

/-- Query parameters of the reporting endpoints, each possibly absent. -/
structure TopSalesParams where
  period : Option String
  genre_id : Option String
  limit : Option String
deriving DecidableEq

/-- `TopSalesView.get` (`views.py` 177-199): 400 unless `period` is
present, truthy and in `PERIOD_MAPPING`; then `limit = int(...)` (an
uncaught `ValueError` if non-numeric); then the query pipeline. -/
def TopSalesView.get (db : DB) (now : Int) (ps : TopSalesParams) :
    TopSalesResponse :=
  match ps.period with
  | none => TopSalesResponse.badRequest
  | some period =>
    if period = "" then TopSalesResponse.badRequest
    else
      match PERIOD_MAPPING period with
      | none => TopSalesResponse.badRequest
      | some delta =>
        match getLimit ps.limit with
        | none => TopSalesResponse.serverError
        | some limit => TopSalesResponse.ok (topSalesRows db now delta none limit)

/-- `TopSalesByGenreView.get` (`views.py` 205-235): 400 unless `period` is
valid; 400 unless `genre_id` is present and truthy; then `limit = int(...)`;
then `filter(book__genre_id=genre_id)` converts `genre_id` with `int()`
(an uncaught `ValueError` if non-numeric); then the query pipeline.  A
numeric `genre_id` matching no genre is never rejected; it just selects
no rows. -/
def TopSalesByGenreView.get (db : DB) (now : Int) (ps : TopSalesParams) :
    TopSalesResponse :=
  match ps.period with
  | none => TopSalesResponse.badRequest
  | some period =>
    if period = "" then TopSalesResponse.badRequest
    else
      match PERIOD_MAPPING period with
      | none => TopSalesResponse.badRequest
      | some delta =>
        match ps.genre_id with
        | none => TopSalesResponse.badRequest
        | some g =>
          if g = "" then TopSalesResponse.badRequest
          else
            match getLimit ps.limit with
            | none => TopSalesResponse.serverError
            | some limit =>
              match pyInt g with
              | none => TopSalesResponse.serverError
              | some gid =>
                TopSalesResponse.ok (topSalesRows db now delta (some gid) limit)

/-! ### Interleaved execution of two sale requests

`SaleView.post` runs the stock check (`SaleCreateSerializer.validate`,
one database read) and the decrement (a second read followed by a write)
with no `select_for_update` or other row lock, so two requests for the
same book may both run their checks before either write commits.  The
schedule below is that interleaving: check₁, check₂, write₁, write₂. -/

/-- Full validation of one sale request against a store snapshot. -/
def saleValid (db : DB) (r : SaleRequest) : Bool :=
  SaleCreateSerializer.fields_valid db r && SaleCreateSerializer.validate db r

/-- Interleaved run of two sale requests: both validations read the
initial store, then each request that passed commits its writes in turn.
Returns the two validation verdicts and the final store. -/
def interleavedSales (db : DB) (r1 r2 : SaleRequest) : Bool × Bool × DB :=
  let v1 := saleValid db r1
  let v2 := saleValid db r2
  let db1 := if v1 then SaleView.commit db r1 else db
  let db2 := if v2 then SaleView.commit db1 r2 else db1
  (v1, v2, db2)

/-! ### Concrete stores used by witnesses and counterexamples -/

/-- One genre, one book (id 1, genre 1, price 1500), no other rows. -/
def dbOneBook : DB :=
  ⟨[⟨1, "Fiction"⟩], [⟨1, 1, 1500, "Dune", "Frank Herbert"⟩], [], [], []⟩

/-- Same catalog with an inventory of 10 for book 1 backed by one ARRIVAL
transaction of 10. -/
def dbStock10 : DB :=
  ⟨[⟨1, "Fiction"⟩], [⟨1, 1, 1500, "Dune", "Frank Herbert"⟩],
    [⟨1, 10⟩], [⟨1, TransactionType.ARRIVAL, 10, ""⟩], []⟩

/-- Same catalog with an inventory of exactly 1 for book 1. -/
def dbStock1 : DB :=
  ⟨[⟨1, "Fiction"⟩], [⟨1, 1, 1500, "Dune", "Frank Herbert"⟩],
    [⟨1, 1⟩], [⟨1, TransactionType.ARRIVAL, 1, ""⟩], []⟩

/-- A store with one genre (id 1), one book in it, and one sale of it;
there is no genre with id 99. -/
def dbGenre1 : DB :=
  ⟨[⟨1, "Fiction"⟩], [⟨1, 1, 1500, "Dune", "Frank Herbert"⟩],
    [⟨1, 8⟩], [⟨1, TransactionType.ARRIVAL, 10, ""⟩,
               ⟨1, TransactionType.SALE, 2, ""⟩],
    [⟨1, 2, 1500, 0⟩]⟩

end Bookstore

namespace Bookstore

/-! ### Helper lemmas about lookups, updates and signed sums -/

theorem findInventory_mem {db : DB} {bid : Nat} {inv : Inventory}
    (h : findInventory db bid = some inv) :
    inv ∈ db.inventories ∧ inv.bookId = bid := by
  unfold findInventory at h
  refine ⟨List.mem_of_find?_eq_some h, ?_⟩
  simpa using List.find?_some h

theorem findInventory_none {db : DB} {bid : Nat}
    (h : findInventory db bid = none) :
    ∀ inv ∈ db.inventories, inv.bookId ≠ bid := by
  unfold findInventory at h
  intro inv hm
  simpa using List.find?_eq_none.mp h inv hm

theorem signedSum_append (txs : List InventoryTransaction)
    (t : InventoryTransaction) (bid : Nat) :
    signedSum (txs ++ [t]) bid =
      signedSum txs bid + (if t.bookId = bid then signedAmount t else 0) := by
  by_cases h : t.bookId = bid <;>
    simp [signedSum, List.filter_append, h]

theorem signedSum_eq_zero {txs : List InventoryTransaction} {bid : Nat}
    (h : ∀ t ∈ txs, t.bookId ≠ bid) : signedSum txs bid = 0 := by
  have hnil : txs.filter (fun t => t.bookId == bid) = [] := by
    rw [List.filter_eq_nil_iff]
    intro t ht
    simpa using h t ht
  simp [signedSum, hnil]

theorem mem_updateInventoryQty {invs : List Inventory} {bid : Nat} {q : Int}
    {inv' : Inventory} (h : inv' ∈ updateInventoryQty invs bid q) :
    ∃ inv ∈ invs,
      inv' = if inv.bookId = bid then { inv with quantity := q } else inv := by
  simp only [updateInventoryQty, List.mem_map] at h
  obtain ⟨inv, hm, he⟩ := h
  exact ⟨inv, hm, he.symm⟩

theorem bookId_surviving_update {invs : List Inventory} {bid : Nat} {q : Int}
    {inv : Inventory} (h : inv ∈ invs) :
    ∃ inv' ∈ updateInventoryQty invs bid q, inv'.bookId = inv.bookId := by
  refine ⟨if inv.bookId = bid then { inv with quantity := q } else inv, ?_, ?_⟩
  · simp only [updateInventoryQty, List.mem_map]
    exact ⟨inv, h, rfl⟩
  · by_cases hb : inv.bookId = bid <;> simp [hb]

theorem nonneg_updateInventoryQty {invs : List Inventory} {bid : Nat} {q : Int}
    (h : ∀ inv ∈ invs, 0 ≤ inv.quantity) (hq : 0 ≤ q) :
    ∀ inv ∈ updateInventoryQty invs bid q, 0 ≤ inv.quantity := by
  intro inv' hm
  obtain ⟨inv, hmem, rfl⟩ := mem_updateInventoryQty hm
  by_cases hb : inv.bookId = bid <;> simp [hb, hq, h inv hmem]

end Bookstore

namespace Bookstore

/-! ### Preservation of the ledger invariant -/

/-- Writing `inv₀.quantity + signedAmount t` back to `t`'s inventory while
appending `t` preserves the ledger invariant. -/
theorem ledgerInvOn_update {invs : List Inventory}
    {txs : List InventoryTransaction} (h : LedgerInvOn invs txs)
    (inv₀ : Inventory) (t : InventoryTransaction)
    (hfind : invs.find? (fun i => i.bookId == t.bookId) = some inv₀) :
    LedgerInvOn
      (updateInventoryQty invs t.bookId (inv₀.quantity + signedAmount t))
      (txs ++ [t]) := by
  obtain ⟨h1, h2⟩ := h
  have hmem : inv₀ ∈ invs := List.mem_of_find?_eq_some hfind
  have hbid : inv₀.bookId = t.bookId := by simpa using List.find?_some hfind
  constructor
  · intro inv' hm
    obtain ⟨inv, hinv, rfl⟩ := mem_updateInventoryQty hm
    by_cases hb : inv.bookId = t.bookId
    · rw [if_pos hb]
      show inv₀.quantity + signedAmount t = signedSum (txs ++ [t]) inv.bookId
      rw [hb, signedSum_append, if_pos rfl]
      have : inv₀.quantity = signedSum txs t.bookId := by
        rw [← hbid]; exact h1 inv₀ hmem
      omega
    · rw [if_neg hb]
      rw [signedSum_append, if_neg (fun he => hb (he.symm))]
      rw [h1 inv hinv]; omega
  · intro t' ht'
    rcases List.mem_append.mp ht' with ht' | ht'
    · obtain ⟨inv, hm, hbi⟩ := h2 t' ht'
      obtain ⟨inv', hm', hbi'⟩ :=
        @bookId_surviving_update invs t.bookId
          (inv₀.quantity + signedAmount t) inv hm
      exact ⟨inv', hm', hbi'.trans hbi⟩
    · have ht : t' = t := by simpa using ht'
      obtain ⟨inv', hm', hbi'⟩ :=
        @bookId_surviving_update invs t.bookId
          (inv₀.quantity + signedAmount t) inv₀ hmem
      exact ⟨inv', hm', by rw [ht, hbi', hbid]⟩

/-- Inserting a fresh inventory holding exactly `signedAmount t` while
appending `t` preserves the ledger invariant. -/
theorem ledgerInvOn_insert {invs : List Inventory}
    {txs : List InventoryTransaction} (h : LedgerInvOn invs txs)
    (t : InventoryTransaction)
    (hfind : invs.find? (fun i => i.bookId == t.bookId) = none) :
    LedgerInvOn (invs ++ [⟨t.bookId, signedAmount t⟩]) (txs ++ [t]) := by
  obtain ⟨h1, h2⟩ := h
  have hnone : ∀ inv ∈ invs, inv.bookId ≠ t.bookId := by
    intro inv hm
    simpa using List.find?_eq_none.mp hfind inv hm
  have hzero : signedSum txs t.bookId = 0 := by
    apply signedSum_eq_zero
    intro t' ht' he
    obtain ⟨inv, hm, hbi⟩ := h2 t' ht'
    exact hnone inv hm (hbi.trans he)
  constructor
  · intro inv' hm
    rcases List.mem_append.mp hm with hm | hm
    · rw [signedSum_append, if_neg (fun he => hnone inv' hm he.symm)]
      rw [h1 inv' hm]; omega
    · have : inv' = ⟨t.bookId, signedAmount t⟩ := by simpa using hm
      subst this
      show signedAmount t = signedSum (txs ++ [t]) t.bookId
      rw [signedSum_append, if_pos rfl, hzero]; omega
  · intro t' ht'
    rcases List.mem_append.mp ht' with ht' | ht'
    · obtain ⟨inv, hm, hbi⟩ := h2 t' ht'
      exact ⟨inv, List.mem_append_left _ hm, hbi⟩
    · have ht : t' = t := by simpa using ht'
      exact ⟨⟨t.bookId, signedAmount t⟩,
        List.mem_append_right _ (by simp), by rw [ht]⟩

end Bookstore

namespace Bookstore

theorem arrival_preserves_ledgerInv (db : DB) (r : ArrivalRequest)
    (h : LedgerInv db) : LedgerInv (ArrivalView.post db r).1 := by
  cases hv : ArrivalSerializer.is_valid db r with
  | false => simpa [ArrivalView.post, hv] using h
  | true =>
    cases hfi : findInventory db r.book_id with
    | none =>
      simp only [ArrivalView.post, hv, hfi, if_true]
      show LedgerInvOn (db.inventories ++ [⟨r.book_id, 0 + r.quantity⟩])
        (db.transactions ++ [⟨r.book_id, TransactionType.ARRIVAL, r.quantity, ""⟩])
      rw [show (0 : Int) + r.quantity = r.quantity by omega]
      exact ledgerInvOn_insert h
        ⟨r.book_id, TransactionType.ARRIVAL, r.quantity, ""⟩ hfi
    | some inv =>
      simp only [ArrivalView.post, hv, hfi, if_true]
      show LedgerInvOn
        (updateInventoryQty db.inventories r.book_id (inv.quantity + r.quantity))
        (db.transactions ++ [⟨r.book_id, TransactionType.ARRIVAL, r.quantity, ""⟩])
      exact ledgerInvOn_update h inv
        ⟨r.book_id, TransactionType.ARRIVAL, r.quantity, ""⟩ hfi

theorem adjustment_preserves_ledgerInv (db : DB) (r : AdjustmentRequest)
    (h : LedgerInv db) : LedgerInv (InventoryAdjustmentView.post db r).1 := by
  cases hv : (InventoryAdjustmentSerializer.fields_valid db r
      && InventoryAdjustmentSerializer.validate db r) with
  | false => simpa [InventoryAdjustmentView.post, hv] using h
  | true =>
    cases hfi : findInventory db r.book_id with
    | none => simpa [InventoryAdjustmentView.post, hv, hfi] using h
    | some inv =>
      simp only [InventoryAdjustmentView.post, hv, hfi, if_true]
      show LedgerInvOn
        (updateInventoryQty db.inventories r.book_id (inv.quantity - r.quantity))
        (db.transactions ++
          [⟨r.book_id, r.transaction_type, r.quantity, r.reason⟩])
      have htt : r.transaction_type = TransactionType.LOSS
          ∨ r.transaction_type = TransactionType.THEFT := by
        have hf : InventoryAdjustmentSerializer.fields_valid db r = true := by
          cases hfv : InventoryAdjustmentSerializer.fields_valid db r <;>
            simp [hfv] at hv ⊢
        simp only [InventoryAdjustmentSerializer.fields_valid,
          Bool.and_eq_true, Bool.or_eq_true, beq_iff_eq] at hf
        exact hf.1.1.2
      have hsub : inv.quantity - r.quantity =
          inv.quantity + signedAmount
            ⟨r.book_id, r.transaction_type, r.quantity, r.reason⟩ := by
        rcases htt with htt | htt <;> rw [htt] <;>
          simp [signedAmount] <;> omega
      rw [hsub]
      exact ledgerInvOn_update h inv
        ⟨r.book_id, r.transaction_type, r.quantity, r.reason⟩ hfi

theorem sale_preserves_ledgerInv (db : DB) (r : SaleRequest)
    (h : LedgerInv db) : LedgerInv (SaleView.post db r).1 := by
  cases hv : (SaleCreateSerializer.fields_valid db r
      && SaleCreateSerializer.validate db r) with
  | false => simpa [SaleView.post, hv] using h
  | true =>
    cases hfi : findInventory db r.book_id with
    | none => simpa [SaleView.post, hv, hfi] using h
    | some inv =>
      simp only [SaleView.post, hv, hfi, if_true]
      show LedgerInv (SaleView.commit db r)
      unfold SaleView.commit
      cases hfb : findBook db r.book_id with
      | none => simpa using h
      | some book =>
        simp only [hfi]
        show LedgerInvOn
          (updateInventoryQty db.inventories r.book_id
            (inv.quantity - r.quantity))
          (db.transactions ++
            [⟨r.book_id, TransactionType.SALE, r.quantity, ""⟩])
        have hsub : inv.quantity - r.quantity =
            inv.quantity + signedAmount
              ⟨r.book_id, TransactionType.SALE, r.quantity, ""⟩ := by
          simp [signedAmount]; omega
        rw [hsub]
        exact ledgerInvOn_update h inv
          ⟨r.book_id, TransactionType.SALE, r.quantity, ""⟩ hfi

theorem applyOps_preserves_ledgerInv (db : DB) (ops : List Op)
    (h : LedgerInv db) : LedgerInv (applyOps db ops) := by
  induction ops generalizing db with
  | nil => exact h
  | cons op ops ih =>
    refine ih (applyOp db op) ?_
    cases op with
    | arrival r => exact arrival_preserves_ledgerInv db r h
    | adjustment r => exact adjustment_preserves_ledgerInv db r h
    | sale r => exact sale_preserves_ledgerInv db r h

theorem applyOpR_success_appends_one (db : DB) (op : Op)
    (h : (applyOpR db op).2 ≠ ApiResult.badRequest) :
    ∃ t, (applyOpR db op).1.transactions = db.transactions ++ [t] := by
  cases op with
  | arrival r =>
    cases hv : ArrivalSerializer.is_valid db r with
    | false => simp [applyOpR, ArrivalView.post, hv] at h
    | true =>
      cases hfi : findInventory db r.book_id <;>
        exact ⟨⟨r.book_id, TransactionType.ARRIVAL, r.quantity, ""⟩,
          by simp [applyOpR, ArrivalView.post, hv, hfi]⟩
  | adjustment r =>
    cases hv : (InventoryAdjustmentSerializer.fields_valid db r
        && InventoryAdjustmentSerializer.validate db r) with
    | false => simp [applyOpR, InventoryAdjustmentView.post, hv] at h
    | true =>
      cases hfi : findInventory db r.book_id with
      | none => simp [applyOpR, InventoryAdjustmentView.post, hv, hfi] at h
      | some inv =>
        exact ⟨⟨r.book_id, r.transaction_type, r.quantity, r.reason⟩,
          by simp [applyOpR, InventoryAdjustmentView.post, hv, hfi]⟩
  | sale r =>
    cases hv : (SaleCreateSerializer.fields_valid db r
        && SaleCreateSerializer.validate db r) with
    | false => simp [applyOpR, SaleView.post, hv] at h
    | true =>
      cases hfi : findInventory db r.book_id with
      | none => simp [applyOpR, SaleView.post, hv, hfi] at h
      | some inv =>
        cases hfb : findBook db r.book_id with
        | none =>
          have hf : SaleCreateSerializer.fields_valid db r = true := by
            cases hfv : SaleCreateSerializer.fields_valid db r <;>
              simp [hfv] at hv ⊢
          simp [SaleCreateSerializer.fields_valid, hfb] at hf
        | some book =>
          exact ⟨⟨r.book_id, TransactionType.SALE, r.quantity, ""⟩,
            by simp [applyOpR, SaleView.post, SaleView.commit, hv, hfi, hfb]⟩

end Bookstore

namespace Bookstore

/-! ### Preservation of non-negativity -/

theorem arrival_preserves_nonneg (db : DB) (r : ArrivalRequest)
    (h : NonNegInv db) : NonNegInv (ArrivalView.post db r).1 := by
  cases hv : ArrivalSerializer.is_valid db r with
  | false => simpa [ArrivalView.post, hv] using h
  | true =>
    have hq : 1 ≤ r.quantity := by
      simp only [ArrivalSerializer.is_valid, Bool.and_eq_true,
        decide_eq_true_eq] at hv
      exact hv.2
    cases hfi : findInventory db r.book_id with
    | none =>
      simp only [ArrivalView.post, hv, hfi, if_true]
      intro inv' hm
      rcases List.mem_append.mp hm with hm | hm
      · exact h inv' hm
      · have : inv' = ⟨r.book_id, 0 + r.quantity⟩ := by simpa using hm
        rw [this]; show (0 : Int) ≤ 0 + r.quantity; omega
    | some inv =>
      simp only [ArrivalView.post, hv, hfi, if_true]
      have h0 : 0 ≤ inv.quantity := h inv (findInventory_mem hfi).1
      exact nonneg_updateInventoryQty h (by omega)

theorem adjustment_preserves_nonneg (db : DB) (r : AdjustmentRequest)
    (h : NonNegInv db) : NonNegInv (InventoryAdjustmentView.post db r).1 := by
  cases hv : (InventoryAdjustmentSerializer.fields_valid db r
      && InventoryAdjustmentSerializer.validate db r) with
  | false => simpa [InventoryAdjustmentView.post, hv] using h
  | true =>
    cases hfi : findInventory db r.book_id with
    | none => simpa [InventoryAdjustmentView.post, hv, hfi] using h
    | some inv =>
      simp only [InventoryAdjustmentView.post, hv, hfi, if_true]
      have hle : r.quantity ≤ inv.quantity := by
        have hval : InventoryAdjustmentSerializer.validate db r = true := by
          cases hva : InventoryAdjustmentSerializer.validate db r <;>
            simp [hva] at hv ⊢
        simpa [InventoryAdjustmentSerializer.validate, hfi] using hval
      exact nonneg_updateInventoryQty h (by omega)

theorem sale_preserves_nonneg (db : DB) (r : SaleRequest)
    (h : NonNegInv db) : NonNegInv (SaleView.post db r).1 := by
  cases hv : (SaleCreateSerializer.fields_valid db r
      && SaleCreateSerializer.validate db r) with
  | false => simpa [SaleView.post, hv] using h
  | true =>
    cases hfi : findInventory db r.book_id with
    | none => simpa [SaleView.post, hv, hfi] using h
    | some inv =>
      simp only [SaleView.post, hv, hfi, if_true]
      show NonNegInv (SaleView.commit db r)
      have hle : r.quantity ≤ inv.quantity := by
        have hval : SaleCreateSerializer.validate db r = true := by
          cases hva : SaleCreateSerializer.validate db r <;>
            simp [hva] at hv ⊢
        simpa [SaleCreateSerializer.validate, hfi] using hval
      unfold SaleView.commit
      cases hfb : findBook db r.book_id with
      | none => simpa using h
      | some book =>
        simp only [hfi]
        exact nonneg_updateInventoryQty h (by omega)

theorem applyOps_preserves_nonneg (db : DB) (ops : List Op)
    (h : NonNegInv db) : NonNegInv (applyOps db ops) := by
  induction ops generalizing db with
  | nil => exact h
  | cons op ops ih =>
    refine ih (applyOp db op) ?_
    cases op with
    | arrival r => exact arrival_preserves_nonneg db r h
    | adjustment r => exact adjustment_preserves_nonneg db r h
    | sale r => exact sale_preserves_nonneg db r h

end Bookstore

namespace Bookstore

/-- **C1**: for every sequence of arrival, sale and adjustment operations,
every `Inventory.quantity` equals the signed sum of its transactions
(ARRIVAL positive; SALE/LOSS/THEFT negative), and every successful
mutation appends exactly one transaction record. -/
theorem inventory_quantity_matches_ledger :
    (∀ db ops, LedgerInv db → LedgerInv (applyOps db ops))
      ∧ ∀ db op, (applyOpR db op).2 ≠ ApiResult.badRequest →
          ∃ t, (applyOpR db op).1.transactions = db.transactions ++ [t] :=
  ⟨applyOps_preserves_ledgerInv, applyOpR_success_appends_one⟩

theorem inventory_quantity_matches_ledger_witness :
    LedgerInv dbOneBook
      ∧ LedgerInv (applyOps dbOneBook
          [Op.arrival ⟨1, 10⟩, Op.sale ⟨1, 2, 0⟩,
           Op.adjustment ⟨1, TransactionType.LOSS, 1, "damaged"⟩]) :=
  ⟨by decide, inventory_quantity_matches_ledger.1 dbOneBook _ (by decide)⟩

/-- **C2**: quantities never go negative in any reachable state, and any
adjustment or sale whose quantity exceeds the current inventory quantity
is rejected with the store unchanged. -/
theorem quantity_never_negative :
    (∀ db ops, NonNegInv db → NonNegInv (applyOps db ops))
      ∧ (∀ db r inv, findInventory db r.book_id = some inv →
          inv.quantity < r.quantity →
          InventoryAdjustmentView.post db r = (db, ApiResult.badRequest))
      ∧ ∀ db r inv, findInventory db r.book_id = some inv →
          inv.quantity < r.quantity →
          SaleView.post db r = (db, ApiResult.badRequest) := by
  refine ⟨applyOps_preserves_nonneg, ?_, ?_⟩
  · intro db r inv hfi hlt
    have hval : InventoryAdjustmentSerializer.validate db r = false := by
      simp only [InventoryAdjustmentSerializer.validate, hfi,
        decide_eq_false_iff_not]
      omega
    simp [InventoryAdjustmentView.post, hval]
  · intro db r inv hfi hlt
    have hval : SaleCreateSerializer.validate db r = false := by
      simp only [SaleCreateSerializer.validate, hfi,
        decide_eq_false_iff_not]
      omega
    simp [SaleView.post, hval]

theorem quantity_never_negative_witness :
    NonNegInv dbStock10
      ∧ NonNegInv (applyOps dbStock10
          [Op.sale ⟨1, 4, 0⟩, Op.sale ⟨1, 9, 1⟩,
           Op.adjustment ⟨1, TransactionType.THEFT, 2, "shoplifting"⟩]) :=
  ⟨by decide, quantity_never_negative.1 dbStock10 _ (by decide)⟩

/-- **C3**: every rejected arrival, adjustment or sale leaves the whole
store unchanged, and a successful sale commits the `Sale` row, the
inventory decrement and the SALE transaction together. -/
theorem failed_operation_state_unchanged :
    (∀ db r, (ArrivalView.post db r).2 = ApiResult.badRequest →
        (ArrivalView.post db r).1 = db)
      ∧ (∀ db r, (InventoryAdjustmentView.post db r).2 = ApiResult.badRequest →
          (InventoryAdjustmentView.post db r).1 = db)
      ∧ (∀ db r, (SaleView.post db r).2 = ApiResult.badRequest →
          (SaleView.post db r).1 = db)
      ∧ ∀ db r q, (SaleView.post db r).2 = ApiResult.created q →
          ∃ book inv, findBook db r.book_id = some book
            ∧ findInventory db r.book_id = some inv
            ∧ (SaleView.post db r).1 = { db with
                sales := db.sales ++
                  [⟨r.book_id, r.quantity, book.price, r.sold_at⟩],
                inventories := updateInventoryQty db.inventories r.book_id
                  (inv.quantity - r.quantity),
                transactions := db.transactions ++
                  [⟨r.book_id, TransactionType.SALE, r.quantity, ""⟩] } := by
  refine ⟨?_, ?_, ?_, ?_⟩
  · intro db r h
    cases hv : ArrivalSerializer.is_valid db r with
    | false => simp [ArrivalView.post, hv]
    | true =>
      cases hfi : findInventory db r.book_id <;>
        simp [ArrivalView.post, hv, hfi] at h
  · intro db r h
    cases hv : (InventoryAdjustmentSerializer.fields_valid db r
        && InventoryAdjustmentSerializer.validate db r) with
    | false => simp [InventoryAdjustmentView.post, hv]
    | true =>
      cases hfi : findInventory db r.book_id with
      | none => simp [InventoryAdjustmentView.post, hv, hfi]
      | some inv => simp [InventoryAdjustmentView.post, hv, hfi] at h
  · intro db r h
    cases hv : (SaleCreateSerializer.fields_valid db r
        && SaleCreateSerializer.validate db r) with
    | false => simp [SaleView.post, hv]
    | true =>
      cases hfi : findInventory db r.book_id with
      | none => simp [SaleView.post, hv, hfi]
      | some inv => simp [SaleView.post, hv, hfi] at h
  · intro db r q h
    cases hv : (SaleCreateSerializer.fields_valid db r
        && SaleCreateSerializer.validate db r) with
    | false => simp [SaleView.post, hv] at h
    | true =>
      cases hfi : findInventory db r.book_id with
      | none => simp [SaleView.post, hv, hfi] at h
      | some inv =>
        cases hfb : findBook db r.book_id with
        | none =>
          have hf : SaleCreateSerializer.fields_valid db r = true := by
            cases hfv : SaleCreateSerializer.fields_valid db r <;>
              simp [hfv] at hv ⊢
          simp [SaleCreateSerializer.fields_valid, hfb] at hf
        | some book =>
          exact ⟨book, inv, rfl, rfl,
            by simp [SaleView.post, SaleView.commit, hv, hfi, hfb]⟩

theorem failed_operation_state_unchanged_witness :
    (SaleView.post dbStock10 ⟨1, 15, 0⟩).2 = ApiResult.badRequest
      ∧ (SaleView.post dbStock10 ⟨1, 15, 0⟩).1 = dbStock10 :=
  ⟨by decide,
    failed_operation_state_unchanged.2.2.1 dbStock10 ⟨1, 15, 0⟩ (by decide)⟩

/-- **C4**: an adjustment whose reason strips to the empty string is
always rejected with the store unchanged, whatever the book, type and
quantity. -/
theorem blank_reason_always_rejected (db : DB) (r : AdjustmentRequest)
    (h : pyStrip r.reason = "") :
    InventoryAdjustmentView.post db r = (db, ApiResult.badRequest) := by
  have hf : InventoryAdjustmentSerializer.fields_valid db r = false := by
    simp [InventoryAdjustmentSerializer.fields_valid, h]
  simp [InventoryAdjustmentView.post, hf]

theorem blank_reason_always_rejected_witness :
    pyStrip "  " = ""
      ∧ InventoryAdjustmentView.post dbStock10
          ⟨1, TransactionType.LOSS, 2, "  "⟩ =
            (dbStock10, ApiResult.badRequest) :=
  ⟨by decide, blank_reason_always_rejected dbStock10 _ (by decide)⟩

/-- **C5**: a valid arrival on a book with no inventory creates it at 0
and raises it to the arrival quantity with one ARRIVAL transaction; with
an existing inventory it increments by the arrival quantity; a
non-positive quantity is rejected before any mutation. -/
theorem arrival_functional_spec :
    (∀ db r, findInventory db r.book_id = none →
        ArrivalSerializer.is_valid db r = true →
        ArrivalView.post db r =
          ({ db with
              inventories := db.inventories ++ [⟨r.book_id, 0 + r.quantity⟩],
              transactions := db.transactions ++
                [⟨r.book_id, TransactionType.ARRIVAL, r.quantity, ""⟩] },
            ApiResult.created (0 + r.quantity)))
      ∧ (∀ db r inv, findInventory db r.book_id = some inv →
          ArrivalSerializer.is_valid db r = true →
          ArrivalView.post db r =
            ({ db with
                inventories := updateInventoryQty db.inventories r.book_id
                  (inv.quantity + r.quantity),
                transactions := db.transactions ++
                  [⟨r.book_id, TransactionType.ARRIVAL, r.quantity, ""⟩] },
              ApiResult.created (inv.quantity + r.quantity)))
      ∧ ∀ db r, r.quantity ≤ 0 →
          ArrivalView.post db r = (db, ApiResult.badRequest) := by
  refine ⟨?_, ?_, ?_⟩
  · intro db r hfi hv
    simp [ArrivalView.post, hv, hfi]
  · intro db r inv hfi hv
    simp [ArrivalView.post, hv, hfi]
  · intro db r hq
    have h1 : ¬(1 ≤ r.quantity) := by omega
    have hv : ArrivalSerializer.is_valid db r = false := by
      simp [ArrivalSerializer.is_valid, h1]
    simp [ArrivalView.post, hv]

theorem arrival_functional_spec_witness :
    findInventory dbOneBook 1 = none
      ∧ ArrivalView.post dbOneBook ⟨1, 10⟩ =
          ({ dbOneBook with
              inventories := dbOneBook.inventories ++ [⟨1, 0 + 10⟩],
              transactions := dbOneBook.transactions ++
                [⟨1, TransactionType.ARRIVAL, 10, ""⟩] },
            ApiResult.created (0 + 10)) :=
  ⟨by decide, arrival_functional_spec.1 dbOneBook ⟨1, 10⟩ (by decide) (by decide)⟩

/-- **C6**: a successful sale appends a `Sale` row whose `unit_price` is
the book's price at the moment of the call, and updating a book's price
afterwards leaves all recorded sales untouched. -/
theorem sale_unit_price_historical :
    (∀ db r book q, findBook db r.book_id = some book →
        (SaleView.post db r).2 = ApiResult.created q →
        (SaleView.post db r).1.sales =
          db.sales ++ [⟨r.book_id, r.quantity, book.price, r.sold_at⟩])
      ∧ ∀ db bid p, (updateBookPrice db bid p).sales = db.sales := by
  constructor
  · intro db r book q hfb h
    cases hv : (SaleCreateSerializer.fields_valid db r
        && SaleCreateSerializer.validate db r) with
    | false => simp [SaleView.post, hv] at h
    | true =>
      cases hfi : findInventory db r.book_id with
      | none => simp [SaleView.post, hv, hfi] at h
      | some inv => simp [SaleView.post, SaleView.commit, hv, hfi, hfb]
  · intro db bid p
    rfl

theorem sale_unit_price_historical_witness :
    findBook dbStock10 1 = some ⟨1, 1, 1500, "Dune", "Frank Herbert"⟩
      ∧ (SaleView.post dbStock10 ⟨1, 2, 5⟩).2 = ApiResult.created 8
      ∧ (SaleView.post dbStock10 ⟨1, 2, 5⟩).1.sales =
          dbStock10.sales ++ [⟨1, 2, 1500, 5⟩] :=
  ⟨by decide, by decide,
    sale_unit_price_historical.1 dbStock10 ⟨1, 2, 5⟩
      ⟨1, 1, 1500, "Dune", "Frank Herbert"⟩ 8 (by decide) (by decide)⟩

end Bookstore

namespace Bookstore

/-! ### Reporting lemmas -/

theorem rowOf_total (db : DB) (p : Nat × Int) :
    (rowOf db p).total_quantity = p.2 := by
  unfold rowOf
  cases findBook db p.1 <;> rfl

theorem PERIOD_MAPPING_ne_empty {period : String} {d : Option Int}
    (h : PERIOD_MAPPING period = some d) : period ≠ "" := by
  intro he
  rw [he] at h
  rw [show PERIOD_MAPPING "" = none by decide] at h
  exact Option.noConfusion h

theorem pyInt_ne_empty {g : String} {gid : Int} (h : pyInt g = some gid) :
    g ≠ "" := by
  intro he
  rw [he] at h
  rw [show pyInt "" = none by decide] at h
  exact Option.noConfusion h

/-- `TopSalesView.get` on a valid period and a convertible limit runs the
query pipeline. -/
theorem topSalesGetOnValidParams (db : DB) (now : Int) (ps : TopSalesParams)
    (period : String) (delta : Option Int) (limit : Int)
    (hp : ps.period = some period) (hm : PERIOD_MAPPING period = some delta)
    (hl : getLimit ps.limit = some limit) :
    TopSalesView.get db now ps =
      TopSalesResponse.ok (topSalesRows db now delta none limit) := by
  have hne : period ≠ "" := PERIOD_MAPPING_ne_empty hm
  simp [TopSalesView.get, hp, hne, hm, hl]

/-- `TopSalesByGenreView.get` on valid parameters runs the query
pipeline restricted to the genre. -/
theorem topSalesByGenreGetOnValidParams (db : DB) (now : Int)
    (ps : TopSalesParams) (period g : String) (delta : Option Int)
    (gid limit : Int) (hp : ps.period = some period)
    (hm : PERIOD_MAPPING period = some delta) (hg : ps.genre_id = some g)
    (hgv : pyInt g = some gid) (hl : getLimit ps.limit = some limit) :
    TopSalesByGenreView.get db now ps =
      TopSalesResponse.ok (topSalesRows db now delta (some gid) limit) := by
  have hne : period ≠ "" := PERIOD_MAPPING_ne_empty hm
  have hgne : g ≠ "" := pyInt_ne_empty hgv
  simp [TopSalesByGenreView.get, hp, hne, hm, hg, hgne, hl, hgv]

end Bookstore

namespace Bookstore

/-- **C7**: the reporting pipeline ranks exactly the books with at least
one qualifying sale (window boundary `now - period` inclusive, genre join
when supplied), with each total the sum of the qualifying quantities,
rows sorted by descending total and truncated to `limit`; both views run
it whenever their parameters are valid. -/
theorem topSelling_functional_spec :
    (∀ db now delta genre limit,
        List.Sorted (fun a b : TopRow => b.total_quantity ≤ a.total_quantity)
          (topSalesRows db now delta genre limit))
      ∧ (∀ db now delta genre limit,
          (topSalesRows db now delta genre limit).length ≤ limit.toNat)
      ∧ (∀ db now delta genre limit,
          topSalesRows db now delta genre limit =
            (((groupedTotals (qualifyingSales db now delta genre)).insertionSort
                byDescTotal).take limit.toNat).map (rowOf db))
      ∧ (∀ db now delta genre bid,
          (∃ p ∈ groupedTotals (qualifyingSales db now delta genre),
              p.1 = bid)
            ↔ ∃ s ∈ db.sales, s.bookId = bid
                ∧ saleSelected db now delta genre s = true)
      ∧ (∀ db now delta genre,
          ∀ p ∈ groupedTotals (qualifyingSales db now delta genre),
            p.2 = totalQuantityFor (qualifyingSales db now delta genre) p.1)
      ∧ (∀ now d s, qualifies now (some d) s = true ↔ now - d ≤ s.sold_at)
      ∧ (∀ db gid s b, findBook db s.bookId = some b →
          (saleGenreMatches db gid s = true ↔ (b.genreId : Int) = gid))
      ∧ (∀ db now ps period delta limit, ps.period = some period →
          PERIOD_MAPPING period = some delta → getLimit ps.limit = some limit →
          TopSalesView.get db now ps =
            TopSalesResponse.ok (topSalesRows db now delta none limit))
      ∧ ∀ db now ps period g delta gid limit, ps.period = some period →
          PERIOD_MAPPING period = some delta → ps.genre_id = some g →
          pyInt g = some gid → getLimit ps.limit = some limit →
          TopSalesByGenreView.get db now ps =
            TopSalesResponse.ok (topSalesRows db now delta (some gid) limit) := by
  refine ⟨?_, ?_, ?_, ?_, ?_, ?_, ?_, ?_, ?_⟩
  · intro db now delta genre limit
    unfold topSalesRows
    apply List.Pairwise.map
    · intro a b hab
      rw [rowOf_total, rowOf_total]
      exact hab
    · exact List.Pairwise.sublist (List.take_sublist _ _)
        (List.sorted_insertionSort byDescTotal _)
  · intro db now delta genre limit
    unfold topSalesRows
    rw [List.length_map]
    exact List.length_take_le _ _
  · intro db now delta genre limit
    rfl
  · intro db now delta genre bid
    constructor
    · rintro ⟨p, hp, rfl⟩
      simp only [groupedTotals, List.mem_map, saleBookIds, List.mem_dedup,
        qualifyingSales, List.mem_filter] at hp
      obtain ⟨b, ⟨s, ⟨hs, hsel⟩, hb⟩, rfl⟩ := hp
      exact ⟨s, hs, hb, hsel⟩
    · rintro ⟨s, hs, hbid, hsel⟩
      refine ⟨(bid, totalQuantityFor (qualifyingSales db now delta genre) bid),
        ?_, rfl⟩
      simp only [groupedTotals, List.mem_map, saleBookIds, List.mem_dedup,
        qualifyingSales, List.mem_filter]
      exact ⟨bid, ⟨s, ⟨hs, hsel⟩, hbid⟩, rfl⟩
  · intro db now delta genre p hp
    simp only [groupedTotals, List.mem_map] at hp
    obtain ⟨b, _, rfl⟩ := hp
    rfl
  · intro now d s
    simp [qualifies]
  · intro db gid s b hfb
    simp [saleGenreMatches, hfb]
  · intro db now ps period delta limit hp hm hl
    exact topSalesGetOnValidParams db now ps period delta limit hp hm hl
  · intro db now ps period g delta gid limit hp hm hg hgv hl
    exact topSalesByGenreGetOnValidParams db now ps period g delta gid limit
      hp hm hg hgv hl

theorem topSelling_functional_spec_witness :
    TopSalesView.get dbGenre1 0 ⟨some "1w", none, none⟩ =
      TopSalesResponse.ok (topSalesRows dbGenre1 0 (some 7) none 10) :=
  topSelling_functional_spec.2.2.2.2.2.2.2.1 dbGenre1 0
    ⟨some "1w", none, none⟩ "1w" (some 7) 10 rfl (by decide) rfl

end Bookstore

namespace Bookstore

/-- **C8** (amended): both reporting views reject with 400 every request
whose period is missing, empty, or not in the enumeration, and the
by-genre view also rejects a missing or empty `genre_id`; a `genre_id`
naming no existing genre is not rejected. -/
theorem top_sales_param_rejection :
    (∀ db now g l, TopSalesView.get db now ⟨none, g, l⟩ =
        TopSalesResponse.badRequest)
      ∧ (∀ db now p g l, PERIOD_MAPPING p = none →
          TopSalesView.get db now ⟨some p, g, l⟩ =
            TopSalesResponse.badRequest)
      ∧ (∀ db now g l, TopSalesByGenreView.get db now ⟨none, g, l⟩ =
          TopSalesResponse.badRequest)
      ∧ (∀ db now p g l, PERIOD_MAPPING p = none →
          TopSalesByGenreView.get db now ⟨some p, g, l⟩ =
            TopSalesResponse.badRequest)
      ∧ (∀ db now p l, TopSalesByGenreView.get db now ⟨some p, none, l⟩ =
          TopSalesResponse.badRequest)
      ∧ ∀ db now p l, TopSalesByGenreView.get db now ⟨some p, some "", l⟩ =
          TopSalesResponse.badRequest := by
  refine ⟨?_, ?_, ?_, ?_, ?_, ?_⟩
  · intro db now g l
    rfl
  · intro db now p g l hm
    by_cases hp : p = "" <;> simp [TopSalesView.get, hp, hm]
  · intro db now g l
    rfl
  · intro db now p g l hm
    by_cases hp : p = "" <;> simp [TopSalesByGenreView.get, hp, hm]
  · intro db now p l
    by_cases hp : p = ""
    · simp [TopSalesByGenreView.get, hp]
    · cases hm : PERIOD_MAPPING p <;>
        simp [TopSalesByGenreView.get, hp, hm]
  · intro db now p l
    by_cases hp : p = ""
    · simp [TopSalesByGenreView.get, hp]
    · cases hm : PERIOD_MAPPING p <;>
        simp [TopSalesByGenreView.get, hp, hm]

theorem top_sales_param_rejection_witness :
    PERIOD_MAPPING "2w" = none
      ∧ TopSalesView.get dbGenre1 0 ⟨some "2w", none, none⟩ =
          TopSalesResponse.badRequest :=
  ⟨by decide,
    top_sales_param_rejection.2.1 dbGenre1 0 "2w" none none (by decide)⟩

/-- **C8 counterexample**: a numeric `genre_id` (99) that names no
existing genre is not rejected with 400; the by-genre view answers 200
with an empty ranking. -/
theorem nonexistent_genre_not_rejected :
    (∀ g ∈ dbGenre1.genres, g.id ≠ 99)
      ∧ TopSalesByGenreView.get dbGenre1 0 ⟨some "all", some "99", none⟩ =
          TopSalesResponse.ok []
      ∧ TopSalesByGenreView.get dbGenre1 0 ⟨some "all", some "99", none⟩ ≠
          TopSalesResponse.badRequest :=
  ⟨by decide, by decide, by decide⟩

/-- **C10**: `limit` is converted with a bare `int()` and never
validated: with valid mandatory parameters, a non-numeric `limit` string
escapes as an uncaught conversion error instead of a 400, and an absent
`limit` runs the pipeline with exactly the default 10. -/
theorem limit_not_validated :
    (∀ db now p d g s, PERIOD_MAPPING p = some d → pyInt s = none →
        TopSalesView.get db now ⟨some p, g, some s⟩ =
          TopSalesResponse.serverError)
      ∧ (∀ db now p d g gid s, PERIOD_MAPPING p = some d →
          pyInt g = some gid → pyInt s = none →
          TopSalesByGenreView.get db now ⟨some p, some g, some s⟩ =
            TopSalesResponse.serverError)
      ∧ (∀ db now p d g, PERIOD_MAPPING p = some d →
          TopSalesView.get db now ⟨some p, g, none⟩ =
            TopSalesResponse.ok (topSalesRows db now d none 10))
      ∧ ∀ db now p d g gid, PERIOD_MAPPING p = some d → pyInt g = some gid →
          TopSalesByGenreView.get db now ⟨some p, some g, none⟩ =
            TopSalesResponse.ok (topSalesRows db now d (some gid) 10) := by
  refine ⟨?_, ?_, ?_, ?_⟩
  · intro db now p d g s hm hs
    have hne : p ≠ "" := PERIOD_MAPPING_ne_empty hm
    simp [TopSalesView.get, hne, hm, getLimit, hs]
  · intro db now p d g gid s hm hg hs
    have hne : p ≠ "" := PERIOD_MAPPING_ne_empty hm
    have hgne : g ≠ "" := pyInt_ne_empty hg
    simp [TopSalesByGenreView.get, hne, hm, hgne, getLimit, hs]
  · intro db now p d g hm
    exact topSalesGetOnValidParams db now ⟨some p, g, none⟩ p d 10 rfl hm rfl
  · intro db now p d g gid hm hg
    exact topSalesByGenreGetOnValidParams db now ⟨some p, some g, none⟩ p g d
      gid 10 rfl hm rfl hg rfl

theorem limit_not_validated_witness :
    pyInt "abc" = none
      ∧ TopSalesView.get dbGenre1 0 ⟨some "all", none, some "abc"⟩ =
          TopSalesResponse.serverError :=
  ⟨by decide,
    limit_not_validated.1 dbGenre1 0 "all" none none "abc"
      (by decide) (by decide)⟩

/-- **C9**: with stock 1 for book 1, two sale requests of quantity 1
whose validations both read the store before either commit both pass,
and after both commits the inventory quantity is -1: the code performs
the check and the decrement with no per-row serialization, so the
claimed consistency does not hold under interleaving. -/
theorem concurrent_sales_drive_quantity_negative :
    (interleavedSales dbStock1 ⟨1, 1, 0⟩ ⟨1, 1, 0⟩).1 = true
      ∧ (interleavedSales dbStock1 ⟨1, 1, 0⟩ ⟨1, 1, 0⟩).2.1 = true
      ∧ findInventory (interleavedSales dbStock1 ⟨1, 1, 0⟩ ⟨1, 1, 0⟩).2.2 1 =
          some ⟨1, -1⟩ :=
  ⟨by decide, by decide, by decide⟩

end Bookstore
